import Mathlib

/-!
Shallow embedding of the Schwab synthetic-stop engine in
src/orb_example.py, and proofs about it.

Every registry in the source (synthetic_entries, synthetic_stops,
symbol_data, Portfolio) is a dictionary keyed by symbol, and each handler
body touches only the entry of the symbol it is processing, so the state
is modelled per symbol.  Quantities are ℤ, order identifiers ℕ, prices
and times ℚ (times measured in minutes, matching Time.AddMinutes).
Venue interaction is modelled by returning the list of requests a call
issues; asynchronous facts the code branches on (the result of an atomic
order Update, the re-read Portfolio quantity, whether Securities contains
the symbol) are explicit inputs.
-/

/-- Status of a venue order ticket (QuantConnect OrderStatus values used
by the source; PartFilled stands for the partially-filled status). -/
inductive OrderStatus where
  | New
  | Submitted
  | PartFilled
  | Filled
  | Canceled
  | Invalid
  | CancelPending
  deriving DecidableEq, Repr

/-- A venue order ticket as the source uses it: an identifier, a signed
quantity and a status (OrderRef in the spec). -/
structure Ticket where
  orderId : ℕ
  quantity : ℤ
  status : OrderStatus
  deriving DecidableEq, Repr

/-- A request issued to the execution venue: the observable effect of one
call into the engine. -/
inductive Request where
  | placeMarket (quantity : ℤ) (tag : String)
  | placeStop (quantity : ℤ) (stopPrice : ℚ) (tag : String)
  | modifyOrder (quantity : ℤ) (stopPrice : ℚ)
  | cancelOrder (orderId : ℕ)
  deriving DecidableEq, Repr

/-- SyntheticEntry dataclass (src/orb_example.py lines 27-35); the symbol
field is implicit in the per-symbol view. -/
structure SyntheticEntry where
  target_price : ℚ
  quantity : ℤ
  timeout : ℚ
  side : ℤ
  original_order_id : Option ℕ
  deriving DecidableEq, Repr

/-- SyntheticStop dataclass (src/orb_example.py lines 37-45); the symbol
field is implicit in the per-symbol view. -/
structure SyntheticStop where
  target_price : ℚ
  quantity : ℤ
  timeout : ℚ
  side : ℤ
  original_order_id : Option ℕ
  deriving DecidableEq, Repr

/-- One market-data tick for a symbol: Security.BidPrice, AskPrice and
Price (the last trade price) as read by the monitor. -/
structure Quote where
  bid : ℚ
  ask : ℚ
  last : ℚ
  deriving DecidableEq, Repr

/-- An asynchronous order-status event as consumed by OnOrderEvent. -/
structure OrderEvent where
  orderId : ℕ
  status : OrderStatus
  message : String
  fillQty : ℤ
  deriving DecidableEq, Repr

/-- Per-symbol protection bookkeeping: the SymbolData fields the
protection engine reads and writes (src/orb_example.py lines 497-522). -/
structure SymbolState where
  entry_price : ℚ
  stop_loss_price : ℚ
  quantity : ℤ
  entry_ticket : Option Ticket
  stop_loss_ticket : Option Ticket
  last_stop_quantity : ℤ
  backup_stops : List Ticket
  deriving DecidableEq, Repr

/-- SchwabSyntheticStops.price_tolerance (src/orb_example.py line 59). -/
def price_tolerance : ℚ := 1 / 100

/-- SchwabSyntheticStops.synthetic_timeout_minutes (line 60). -/
def synthetic_timeout_minutes : ℚ := 10

/-- Body of the per-watch loop of process_synthetic_entries
(src/orb_example.py lines 114-156) for one entry watch.  `hasSecurity`
models `Securities.ContainsKey(symbol)`.  Returns the watch if it stays
registered, and the venue requests issued. -/
def process_entry_watch (e : SyntheticEntry) (hasSecurity : Bool)
    (q : Quote) (now : ℚ) : Option SyntheticEntry × List Request :=
  if ¬hasSecurity then (some e, [])
  else if now ≥ e.timeout ∨ q.bid = 0 ∨ q.ask = 0 then
    (none, [])
  else if e.quantity > 0 then
    if q.ask > 0 ∧ q.ask ≤ e.target_price + price_tolerance then
      (none, [Request.placeStop e.quantity e.target_price "Synthetic Entry"])
    else if q.last > e.target_price then
      (none, [Request.placeMarket e.quantity "Synthetic Entry (Cross)"])
    else (some e, [])
  else
    if q.bid > 0 ∧ q.bid ≥ e.target_price - price_tolerance then
      (none, [Request.placeStop e.quantity e.target_price "Synthetic Entry"])
    else if q.last < e.target_price then
      (none, [Request.placeMarket e.quantity "Synthetic Entry (Cross)"])
    else (some e, [])

/-- Body of the per-watch loop of process_synthetic_stops
(src/orb_example.py lines 158-207) for one stop watch.  `hasSecurity`
models `Securities.ContainsKey(symbol)`; `position` is the re-read
`Portfolio[symbol].Quantity`. -/
def process_stop_watch (w : SyntheticStop) (hasSecurity : Bool)
    (position : ℤ) (q : Quote) (now : ℚ) :
    Option SyntheticStop × List Request :=
  if ¬hasSecurity then (some w, [])
  else if position = 0 then (none, [])
  else if now ≥ w.timeout then
    (none, [Request.placeMarket w.quantity "Synthetic Stop (Timeout)"])
  else if w.quantity < 0 then
    if q.bid > 0 ∧ q.bid ≥ w.target_price - price_tolerance then
      (none, [Request.placeStop w.quantity w.target_price "Synthetic Stop"])
    else if q.last < w.target_price then
      (none, [Request.placeMarket w.quantity "Synthetic Stop (Cross)"])
    else (some w, [])
  else
    if q.ask > 0 ∧ q.ask ≤ w.target_price + price_tolerance then
      (none, [Request.placeStop w.quantity w.target_price "Synthetic Stop"])
    else if q.last > w.target_price then
      (none, [Request.placeMarket w.quantity "Synthetic Stop (Cross)"])
    else (some w, [])

/-- True of venue requests that place a real stop order. -/
def isStopPlacement : Request → Bool
  | Request.placeStop _ _ _ => true
  | _ => false

/-- C6: an active stop watch on a symbol with nonzero position, processed
at or after its timeout, issues a market order for the full watch
quantity and is removed; it never disappears on timeout without an order
being placed. -/
theorem stop_watch_timeout_forces_market (w : SyntheticStop) (position : ℤ)
    (q : Quote) (now : ℚ) (hpos : position ≠ 0) (ht : now ≥ w.timeout) :
    process_stop_watch w true position q now =
      (none, [Request.placeMarket w.quantity "Synthetic Stop (Timeout)"]) := by
  unfold process_stop_watch
  simp [hpos, ht]

theorem stop_watch_timeout_forces_market_witness :
    (10 : ℤ) ≠ 0 ∧ (10 + 1/60 : ℚ) ≥ (10 : ℚ) ∧
    process_stop_watch ⟨100, -10, 10, -1, none⟩ true 10 ⟨99, 101, 100⟩ (10 + 1/60) =
      (none, [Request.placeMarket (-10) "Synthetic Stop (Timeout)"]) :=
  ⟨by decide, by norm_num,
   stop_watch_timeout_forces_market ⟨100, -10, 10, -1, none⟩ 10 ⟨99, 101, 100⟩
     (10 + 1/60) (by decide) (by norm_num)⟩

/-- C10: a stop watch whose symbol reads a flat (zero) portfolio position
is removed with no order; the position check precedes the timeout check,
so this holds at any time, including at or after timeout. -/
theorem stop_watch_flat_position_removed (w : SyntheticStop) (q : Quote)
    (now : ℚ) : process_stop_watch w true 0 q now = (none, []) := by
  unfold process_stop_watch
  simp

/-- C7 counterexample: a stop watch processed before its timeout on a
stale quote (bid = 0) still issues a market order through the crossing
branch, contradicting the claim that no order is issued and that the
watch exits only via the timeout path. -/
theorem stale_quote_stop_watch_counterexample :
    (0 : ℚ) < (1000 : ℚ) ∧ (⟨0, 50, 99⟩ : Quote).bid = 0 ∧
    process_stop_watch ⟨100, -10, 1000, -1, none⟩ true 10 ⟨0, 50, 99⟩ 0 =
      (none, [Request.placeMarket (-10) "Synthetic Stop (Cross)"]) := by
  refine ⟨by norm_num, rfl, ?_⟩
  unfold process_stop_watch
  norm_num

/-- C7 amended: before timeout, when the side-relevant quote is zero (bid
for a long-exit watch, ask for a short-exit watch), no real stop order is
placed for the watch; the crossing check on the last price still runs and
may issue a market order, so the watch does not exit only via timeout. -/
theorem stale_quote_no_stop_placed (w : SyntheticStop) (position : ℤ)
    (q : Quote) (now : ℚ) (hpos : position ≠ 0) (ht : now < w.timeout)
    (hside : (w.quantity < 0 ∧ q.bid = 0) ∨ (¬w.quantity < 0 ∧ q.ask = 0)) :
    ∀ r ∈ (process_stop_watch w true position q now).2,
      isStopPlacement r = false := by
  intro r hr
  unfold process_stop_watch at hr
  rcases hside with ⟨hq, hb⟩ | ⟨hq, ha⟩
  · simp only [if_neg (by simp : ¬¬(true = true)), if_neg hpos,
      if_neg (not_le.mpr ht), if_pos hq,
      if_neg (show ¬(q.bid > 0 ∧ q.bid ≥ w.target_price - price_tolerance) by
        simp [hb])] at hr
    by_cases hc : q.last < w.target_price
    · rw [if_pos hc] at hr
      have hr2 := List.mem_singleton.mp hr
      subst hr2
      rfl
    · rw [if_neg hc] at hr
      exact absurd hr (List.not_mem_nil r)
  · simp only [if_neg (by simp : ¬¬(true = true)), if_neg hpos,
      if_neg (not_le.mpr ht), if_neg hq,
      if_neg (show ¬(q.ask > 0 ∧ q.ask ≤ w.target_price + price_tolerance) by
        simp [ha])] at hr
    by_cases hc : w.target_price < q.last
    · rw [if_pos hc] at hr
      have hr2 := List.mem_singleton.mp hr
      subst hr2
      rfl
    · rw [if_neg hc] at hr
      exact absurd hr (List.not_mem_nil r)

theorem stale_quote_no_stop_placed_witness :
    (10 : ℤ) ≠ 0 ∧ (0 : ℚ) < (1000 : ℚ) ∧
    (((-10 : ℤ) < 0 ∧ (⟨0, 50, 99⟩ : Quote).bid = 0) ∨
      (¬(-10 : ℤ) < 0 ∧ (⟨0, 50, 99⟩ : Quote).ask = 0)) ∧
    ∀ r ∈ (process_stop_watch ⟨100, -10, 1000, -1, none⟩ true 10 ⟨0, 50, 99⟩ 0).2,
      isStopPlacement r = false :=
  ⟨by decide, by norm_num, Or.inl ⟨by decide, rfl⟩,
   stale_quote_no_stop_placed ⟨100, -10, 1000, -1, none⟩ 10 ⟨0, 50, 99⟩ 0
     (by decide) (by norm_num) (Or.inl ⟨by decide, rfl⟩)⟩

/-- C9: a long-side entry watch on a non-stale, non-timed-out tick:
if the ask has cleared the tolerance band, a real stop order is placed at
exactly the target price and the watch is removed; otherwise if the last
price has crossed above the target, a market order for the watch quantity
is issued and the watch is removed; otherwise the watch stays active with
no order. -/
theorem long_entry_watch_tick (e : SyntheticEntry) (q : Quote) (now : ℚ)
    (ht : now < e.timeout) (hb : q.bid ≠ 0) (ha : q.ask ≠ 0)
    (hq : e.quantity > 0) :
    (q.ask > 0 ∧ q.ask ≤ e.target_price + price_tolerance →
      process_entry_watch e true q now =
        (none, [Request.placeStop e.quantity e.target_price "Synthetic Entry"])) ∧
    (¬(q.ask > 0 ∧ q.ask ≤ e.target_price + price_tolerance) →
      q.last > e.target_price →
      process_entry_watch e true q now =
        (none, [Request.placeMarket e.quantity "Synthetic Entry (Cross)"])) ∧
    (¬(q.ask > 0 ∧ q.ask ≤ e.target_price + price_tolerance) →
      ¬q.last > e.target_price →
      process_entry_watch e true q now = (some e, [])) := by
  have hbase : process_entry_watch e true q now =
      if q.ask > 0 ∧ q.ask ≤ e.target_price + price_tolerance then
        (none, [Request.placeStop e.quantity e.target_price "Synthetic Entry"])
      else if q.last > e.target_price then
        (none, [Request.placeMarket e.quantity "Synthetic Entry (Cross)"])
      else (some e, []) := by
    unfold process_entry_watch
    rw [if_neg (by simp), if_neg (by push_neg; exact ⟨ht, hb, ha⟩), if_pos hq]
  refine ⟨fun hclear => ?_, fun hnc hcross => ?_, fun hnc hncross => ?_⟩
  · rw [hbase, if_pos hclear]
  · rw [hbase, if_neg hnc, if_pos hcross]
  · rw [hbase, if_neg hnc, if_neg hncross]

theorem long_entry_watch_tick_witness :
    (0 : ℚ) < (1000 : ℚ) ∧ ((⟨99, 9999/100, 99⟩ : Quote).bid ≠ 0) ∧
    ((⟨99, 9999/100, 99⟩ : Quote).ask ≠ 0) ∧ ((10 : ℤ) > 0) ∧
    ((9999/100 : ℚ) > 0 ∧ (9999/100 : ℚ) ≤ 100 + price_tolerance) ∧
    process_entry_watch ⟨100, 10, 1000, 1, none⟩ true ⟨99, 9999/100, 99⟩ 0 =
      (none, [Request.placeStop 10 100 "Synthetic Entry"]) :=
  ⟨by norm_num, by norm_num, by norm_num, by decide,
   by constructor <;> norm_num [price_tolerance],
   (long_entry_watch_tick ⟨100, 10, 1000, 1, none⟩ ⟨99, 9999/100, 99⟩ 0
      (by norm_num) (by norm_num) (by norm_num) (by decide)).1
     (by constructor <;> norm_num [price_tolerance])⟩

/-- Quantity held by an optional synthetic stop watch (zero when the
symbol is not in the synthetic_stops registry). -/
def synQty : Option SyntheticStop → ℤ
  | none => 0
  | some s => s.quantity

/-- Sum of the quantities of the tracked backup stop orders. -/
def backupSum (st : SymbolState) : ℤ :=
  (st.backup_stops.map Ticket.quantity).sum

/-- SymbolData.cancel_all_stops (src/orb_example.py lines 749-762):
cancel the main stop if Submitted or partially filled, cancel Submitted
backups, clear the backup list and the confirmed stop quantity.  A
cancelled ticket's status is recorded as CancelPending. -/
def cancel_all_stops (st : SymbolState) : SymbolState × List Request :=
  let main :=
    match st.stop_loss_ticket with
    | some t =>
      if t.status = OrderStatus.Submitted ∨ t.status = OrderStatus.PartFilled then
        (some ({ t with status := OrderStatus.CancelPending } : Ticket),
         [Request.cancelOrder t.orderId])
      else (some t, ([] : List Request))
    | none => (none, ([] : List Request))
  let backupReqs := st.backup_stops.filterMap fun b =>
    if b.status = OrderStatus.Submitted then some (Request.cancelOrder b.orderId)
    else none
  ({ st with
      stop_loss_ticket := main.1
      backup_stops := []
      last_stop_quantity := 0 },
   main.2 ++ backupReqs)

/-- SymbolData.add_synthetic_protection (src/orb_example.py lines
706-747): clamp the addition to abs(position) minus
abs(last_stop_quantity + existing synthetic quantity) and create or
accumulate the per-symbol synthetic stop watch. -/
def add_synthetic_protection (st : SymbolState) (syn : Option SyntheticStop)
    (position : ℤ) (uncovered_qty : ℤ) (now : ℚ) : Option SyntheticStop :=
  if position = 0 then syn
  else
    let already_protected := st.last_stop_quantity + synQty syn
    let actually_needed := |position| - |already_protected|
    if actually_needed ≤ 0 then syn
    else
      let to_add := (min |uncovered_qty| actually_needed) *
        (if uncovered_qty > 0 then 1 else -1)
      match syn with
      | none => some ⟨st.stop_loss_price, to_add, now + 10,
          if position > 0 then -1 else 1, none⟩
      | some s => some { s with quantity := s.quantity + to_add }

/-- SymbolData.ensure_position_protected (src/orb_example.py lines
649-704).  `position` is the Portfolio quantity read at entry,
`update_ok` is the IsSuccess result of the atomic Update call, `newId`
the identifier a newly placed order receives.  Returns the new symbol
state, the new synthetic watch, and the venue requests issued. -/
def ensure_position_protected (st : SymbolState) (syn : Option SyntheticStop)
    (position : ℤ) (update_ok : Bool) (now : ℚ) (newId : ℕ) :
    SymbolState × Option SyntheticStop × List Request :=
  if position = 0 then
    let r := cancel_all_stops st
    (r.1, syn, r.2)
  else
    let desired := -position
    match st.stop_loss_ticket with
    | none =>
      ({ st with
          stop_loss_ticket := some ⟨newId, desired, OrderStatus.Submitted⟩
          last_stop_quantity := desired
          quantity := position }, syn,
       [Request.placeStop desired st.stop_loss_price "ATR Stop"])
    | some t =>
      if t.status = OrderStatus.Canceled ∨ t.status = OrderStatus.Invalid then
        ({ st with
            stop_loss_ticket := some ⟨newId, desired, OrderStatus.Submitted⟩
            last_stop_quantity := desired
            quantity := position }, syn,
         [Request.placeStop desired st.stop_loss_price "ATR Stop"])
      else if st.last_stop_quantity ≠ desired then
        if update_ok then
          ({ st with
              stop_loss_ticket := some { t with quantity := desired }
              last_stop_quantity := desired
              quantity := position }, syn,
           [Request.modifyOrder desired st.stop_loss_price])
        else
          let uncovered := desired - st.last_stop_quantity
          let st' := { st with backup_stops :=
            st.backup_stops ++ [⟨newId, uncovered, OrderStatus.Submitted⟩] }
          (st', add_synthetic_protection st' syn position uncovered now,
           [Request.modifyOrder desired st.stop_loss_price,
            Request.placeStop uncovered st.stop_loss_price "Backup Stop"])
      else (st, syn, [])

/-- Total protective quantity tracked for a symbol: confirmed stop
quantity plus backup order quantities plus synthetic watch quantity. -/
def coverage (st : SymbolState) (syn : Option SyntheticStop) : ℤ :=
  st.last_stop_quantity + backupSum st + synQty syn

/-- Already-protected quantity as the claim words it: confirmed stop
quantity plus the backup stop order quantities plus any existing
synthetic watch quantity (written from the spec sentence, for comparison
with the source's computation). -/
def claimed_already_protected (st : SymbolState) (syn : Option SyntheticStop) : ℤ :=
  st.last_stop_quantity + backupSum st + synQty syn

/-- Amount added to synthetic coverage as the claim describes it: clamped
to abs(position) - abs(claimed_already_protected), nothing added when
that is non-positive. -/
def claimed_synthetic_addition (st : SymbolState) (syn : Option SyntheticStop)
    (position : ℤ) (uncovered_qty : ℤ) : ℤ :=
  if position = 0 then 0
  else
    let needed := |position| - |claimed_already_protected st syn|
    if needed ≤ 0 then 0
    else (min |uncovered_qty| needed) * (if uncovered_qty > 0 then 1 else -1)

/-- Amount the source actually adds: the same clamp formula but with the
already-protected quantity taken as confirmed stop quantity plus existing
synthetic quantity only, without the backup order quantities. -/
def source_synthetic_addition (st : SymbolState) (syn : Option SyntheticStop)
    (position : ℤ) (uncovered_qty : ℤ) : ℤ :=
  if position = 0 then 0
  else
    let needed := |position| - |st.last_stop_quantity + synQty syn|
    if needed ≤ 0 then 0
    else (min |uncovered_qty| needed) * (if uncovered_qty > 0 then 1 else -1)

/-- C8 counterexample: with a confirmed stop of -50 and a backup order of
-30 on a +100 position, the claim's clamp allows at most 20 more shares
of synthetic coverage, but add_synthetic_protection (which ignores backup
quantities) adds -50. -/
theorem synthetic_clamp_counterexample :
    synQty (add_synthetic_protection
        ⟨50, 49, 100, none, some ⟨1, -50, OrderStatus.Submitted⟩, -50,
          [⟨2, -30, OrderStatus.Submitted⟩]⟩ none 100 (-50) 0) -
      synQty (none : Option SyntheticStop) = -50 ∧
    claimed_synthetic_addition
        ⟨50, 49, 100, none, some ⟨1, -50, OrderStatus.Submitted⟩, -50,
          [⟨2, -30, OrderStatus.Submitted⟩]⟩ none 100 (-50) = -20 ∧
    (-50 : ℤ) ≠ -20 := by
  refine ⟨by decide, by decide, by decide⟩

/-- C8 amended: the amount add_synthetic_protection adds to the synthetic
watch quantity equals the claimed clamp formula with already-protected
taken as confirmed stop quantity plus existing synthetic quantity only
(backup order quantities are not counted): zero when the position is zero
or the clamp is non-positive, otherwise min of abs(uncovered) and the
clamp, signed like the uncovered quantity. -/
theorem synthetic_clamp_amended (st : SymbolState) (syn : Option SyntheticStop)
    (position uncovered_qty : ℤ) (now : ℚ) :
    synQty (add_synthetic_protection st syn position uncovered_qty now) -
      synQty syn = source_synthetic_addition st syn position uncovered_qty := by
  cases syn with
  | none =>
    simp only [add_synthetic_protection, source_synthetic_addition, synQty]
    split_ifs <;> simp [synQty]
  | some s =>
    simp only [add_synthetic_protection, source_synthetic_addition, synQty]
    split_ifs <;> simp [synQty]

/-- C1 counterexample: position +100, live confirmed stop of -80, no
backups and no synthetic watch; the position grew, the atomic update
fails, and ensure_position_protected places a backup for -20 AND registers
-20 of synthetic coverage, leaving total coverage -120 instead of -100. -/
theorem coverage_invariant_counterexample :
    (100 : ℤ) ≠ 0 ∧
    coverage
        (ensure_position_protected
          ⟨50, 49, 80, none, some ⟨1, -80, OrderStatus.Submitted⟩, -80, []⟩
          none 100 false 0 2).1
        (ensure_position_protected
          ⟨50, 49, 80, none, some ⟨1, -80, OrderStatus.Submitted⟩, -80, []⟩
          none 100 false 0 2).2.1 = -120 ∧
    (-120 : ℤ) ≠ -(100 : ℤ) :=
  ⟨by decide, by decide, by decide⟩

/-- C1 amended: the coverage invariant (confirmed + backups + synthetic =
-position) holds after ensure_position_protected returns for a nonzero
position, provided there are no pre-existing backup orders or synthetic
watch and the call does not take the failed-update path; on that path the
code places a backup order and synthetic coverage for the same uncovered
quantity, over-covering by that amount. -/
theorem coverage_invariant_amended (st : SymbolState)
    (syn : Option SyntheticStop) (position : ℤ) (now : ℚ) (newId : ℕ)
    (hpos : position ≠ 0) (hb : st.backup_stops = []) (hs : syn = none) :
    coverage (ensure_position_protected st syn position true now newId).1
      (ensure_position_protected st syn position true now newId).2.1 =
      -position := by
  subst hs
  unfold ensure_position_protected
  rw [if_neg hpos]
  cases hT : st.stop_loss_ticket with
  | none => simp [coverage, backupSum, synQty, hb]
  | some t =>
    by_cases hc : t.status = OrderStatus.Canceled ∨ t.status = OrderStatus.Invalid
    · simp [hc, coverage, backupSum, synQty, hb]
    · by_cases hq : st.last_stop_quantity ≠ -position
      · simp [hc, hq, coverage, backupSum, synQty, hb]
      · push_neg at hq
        simp [hc, hq, coverage, backupSum, synQty, hb]

theorem coverage_invariant_amended_witness :
    (100 : ℤ) ≠ 0 ∧
    (⟨50, 49, 80, none, some ⟨1, -80, OrderStatus.Submitted⟩, -80, []⟩ :
        SymbolState).backup_stops = [] ∧
    (none : Option SyntheticStop) = none ∧
    coverage
        (ensure_position_protected
          ⟨50, 49, 80, none, some ⟨1, -80, OrderStatus.Submitted⟩, -80, []⟩
          none 100 true 0 2).1
        (ensure_position_protected
          ⟨50, 49, 80, none, some ⟨1, -80, OrderStatus.Submitted⟩, -80, []⟩
          none 100 true 0 2).2.1 = -(100 : ℤ) :=
  ⟨by decide, rfl, rfl,
   coverage_invariant_amended
     ⟨50, 49, 80, none, some ⟨1, -80, OrderStatus.Submitted⟩, -80, []⟩
     none 100 0 2 (by decide) rfl rfl⟩

/-- After cancel_all_stops runs once, running it again issues no venue
requests: the backup list is empty and the main ticket is no longer in a
cancellable status. -/
theorem cancel_all_stops_snd_idem (st : SymbolState) :
    (cancel_all_stops (cancel_all_stops st).1).2 = [] := by
  unfold cancel_all_stops
  cases hT : st.stop_loss_ticket with
  | none => simp
  | some t =>
    by_cases hs : t.status = OrderStatus.Submitted ∨ t.status = OrderStatus.PartFilled
    · simp [hs]
    · simp [hs]

/-- Reconciliation is a no-op when the position is nonzero, the main stop
ticket is live (not missing, canceled or invalid) and the confirmed stop
quantity already equals the negative of the position. -/
theorem reconcile_noop_of_matching (st : SymbolState)
    (syn : Option SyntheticStop) (position : ℤ) (u : Bool) (now : ℚ)
    (newId : ℕ) (t : Ticket) (hp : position ≠ 0)
    (ht : st.stop_loss_ticket = some t)
    (hc : ¬(t.status = OrderStatus.Canceled ∨ t.status = OrderStatus.Invalid))
    (hl : st.last_stop_quantity = -position) :
    ensure_position_protected st syn position u now newId = (st, syn, []) := by
  unfold ensure_position_protected
  rw [if_neg hp, ht]
  simp [hc, hl]

/-- When reconciliation of a nonzero position leaves the confirmed stop
quantity equal to the negative of the position, it also leaves a live
main stop ticket (one that is neither canceled nor invalid). -/
theorem reconcile_post_ticket (st : SymbolState) (syn : Option SyntheticStop)
    (position : ℤ) (u : Bool) (now : ℚ) (newId : ℕ) (hp : position ≠ 0)
    (hl : (ensure_position_protected st syn position u now newId).1.last_stop_quantity =
      -position) :
    ∃ t, (ensure_position_protected st syn position u now newId).1.stop_loss_ticket =
        some t ∧
      ¬(t.status = OrderStatus.Canceled ∨ t.status = OrderStatus.Invalid) := by
  unfold ensure_position_protected at hl ⊢
  rw [if_neg hp] at hl ⊢
  cases hT : st.stop_loss_ticket with
  | none =>
    refine ⟨⟨newId, -position, OrderStatus.Submitted⟩, by simp, by simp⟩
  | some t =>
    by_cases hc : t.status = OrderStatus.Canceled ∨ t.status = OrderStatus.Invalid
    · refine ⟨⟨newId, -position, OrderStatus.Submitted⟩, by simp [hc], by simp⟩
    · by_cases hq : st.last_stop_quantity ≠ -position
      · cases u with
        | true =>
          refine ⟨⟨t.orderId, -position, t.status⟩, by simp [hc, hq], ?_⟩
          simpa using hc
        | false =>
          exfalso
          rw [hT] at hl
          simp [hc, hq] at hl
      · push_neg at hq
        exact ⟨t, by simp [hc, hq, hT], hc⟩

/-- C3 counterexample: position +100, live confirmed stop of -80; the
first reconciliation call attempts an update that fails, so the second
call with unchanged position and stop price again attempts the update and
places another backup order - it does not issue zero venue requests. -/
theorem reconcile_idempotence_counterexample :
    (ensure_position_protected
        (ensure_position_protected
          ⟨50, 49, 80, none, some ⟨1, -80, OrderStatus.Submitted⟩, -80, []⟩
          none 100 false 0 5).1
        (ensure_position_protected
          ⟨50, 49, 80, none, some ⟨1, -80, OrderStatus.Submitted⟩, -80, []⟩
          none 100 false 0 5).2.1
        100 false 0 6).2.2 ≠ [] := by
  decide

/-- C3 amended: calling ensure_position_protected twice with unchanged
position and stop price issues zero venue requests on the second call,
provided the first call did not end in a failed atomic update (that is,
the position is zero, or the first call left the confirmed stop quantity
equal to the negative of the position); after a failed update the second
call re-attempts the modify and places another backup order. -/
theorem reconcile_idempotent_amended (st : SymbolState)
    (syn : Option SyntheticStop) (position : ℤ) (u1 u2 : Bool)
    (now1 now2 : ℚ) (id1 id2 : ℕ)
    (h : position = 0 ∨
      (ensure_position_protected st syn position u1 now1 id1).1.last_stop_quantity =
        -position) :
    (ensure_position_protected
        (ensure_position_protected st syn position u1 now1 id1).1
        (ensure_position_protected st syn position u1 now1 id1).2.1
        position u2 now2 id2).2.2 = [] := by
  by_cases hp : position = 0
  · subst hp
    unfold ensure_position_protected
    simpa using cancel_all_stops_snd_idem st
  · replace h := h.resolve_left hp
    obtain ⟨t, hticket, hstatus⟩ :=
      reconcile_post_ticket st syn position u1 now1 id1 hp h
    rw [reconcile_noop_of_matching _ _ position u2 now2 id2 t hp hticket hstatus h]

theorem reconcile_idempotent_amended_witness :
    ((100 : ℤ) = 0 ∨
      (ensure_position_protected
        ⟨50, 49, 80, none, some ⟨1, -80, OrderStatus.Submitted⟩, -80, []⟩
        none 100 true 0 5).1.last_stop_quantity = -(100 : ℤ)) ∧
    (ensure_position_protected
        (ensure_position_protected
          ⟨50, 49, 80, none, some ⟨1, -80, OrderStatus.Submitted⟩, -80, []⟩
          none 100 true 0 5).1
        (ensure_position_protected
          ⟨50, 49, 80, none, some ⟨1, -80, OrderStatus.Submitted⟩, -80, []⟩
          none 100 true 0 5).2.1
        100 true 0 6).2.2 = [] :=
  ⟨Or.inr (by decide),
   reconcile_idempotent_amended
     ⟨50, 49, 80, none, some ⟨1, -80, OrderStatus.Submitted⟩, -80, []⟩
     none 100 true true 0 0 5 6 (Or.inr (by decide))⟩

/-- Check whether the character list pat occurs at the head of cs. -/
def charsLead : List Char → List Char → Bool
  | [], _ => true
  | _ :: _, [] => false
  | p :: ps, c :: cs => (p == c) && charsLead ps cs

/-- Check whether pat occurs as a contiguous run anywhere in hay
(the Python `pat in hay` substring test). -/
def charsContain (pat : List Char) : List Char → Bool
  | [] => charsLead pat []
  | c :: rest => charsLead pat (c :: rest) || charsContain pat rest

/-- Lower-cased character list of a string (message.lower()). -/
def lowerChars (s : String) : List Char := s.data.map Char.toLower

/-- SchwabSyntheticStops rejection keyword list (src/orb_example.py lines
64-69). -/
def rejection_keywords : List (List Char) :=
  [String.data "stop price must be", String.data "stop order rejected",
   String.data "invalid stop price", String.data "stop price outside spread"]

/-- SchwabSyntheticStops.is_schwab_rejection (lines 62-70):
case-insensitive substring match against the keyword list. -/
def is_schwab_rejection (order_message : String) : Bool :=
  rejection_keywords.any fun k => charsContain k (lowerChars order_message)

/-- SchwabSyntheticStops.handle_entry_rejection (lines 72-91): register an
entry watch if the symbol is not already monitored (no-op otherwise). -/
def handle_entry_rejection (entryW : Option SyntheticEntry) (order_id : ℕ)
    (target_price : ℚ) (quantity : ℤ) (now : ℚ) : Option SyntheticEntry :=
  match entryW with
  | some e => some e
  | none => some ⟨target_price, quantity, now + synthetic_timeout_minutes,
      if quantity > 0 then 1 else -1, some order_id⟩

/-- SchwabSyntheticStops.handle_stop_rejection (lines 93-112): register a
stop watch if the symbol is not already monitored (no-op otherwise). -/
def handle_stop_rejection (stopW : Option SyntheticStop) (order_id : ℕ)
    (target_price : ℚ) (quantity : ℤ) (now : ℚ) : Option SyntheticStop :=
  match stopW with
  | some s => some s
  | none => some ⟨target_price, quantity, now + synthetic_timeout_minutes,
      if quantity < 0 then -1 else 1, some order_id⟩

/-- Test whether an optional ticket exists and carries the given order
identifier (the Python `ticket and ticket.OrderId == event.OrderId`). -/
def ticketMatches : Option Ticket → ℕ → Bool
  | some t, oid => t.orderId == oid
  | none, _ => false

/-- OpeningRangeBreakoutAlgorithm.HandleSchwabRejection (lines 439-469),
reading the SymbolData order-tracking fields (the source spells them
EntryTicket, StopLossTicket, EntryPrice, Quantity and StopLossPrice while
SymbolData defines them in snake case; the snake-case fields are the
corresponding state). -/
def HandleSchwabRejection (sd : SymbolState) (entryW : Option SyntheticEntry)
    (stopW : Option SyntheticStop) (ev : OrderEvent) (now : ℚ) :
    Option SyntheticEntry × Option SyntheticStop :=
  if ticketMatches sd.entry_ticket ev.orderId then
    (handle_entry_rejection entryW ev.orderId sd.entry_price sd.quantity now,
     stopW)
  else if ticketMatches sd.stop_loss_ticket ev.orderId then
    (entryW,
     handle_stop_rejection stopW ev.orderId sd.stop_loss_price (-sd.quantity) now)
  else (entryW, stopW)

/-- SymbolData.OnOrderEvent (lines 623-647): on a fill of the tracked
entry order, record the fill quantity, place the stop loss, and run
ensure_position_protected.  `newId` is the identifier of the stop-loss
order placed here; any order placed inside the reconciliation gets
newId + 1. -/
def symbolOnOrderEvent (st : SymbolState) (syn : Option SyntheticStop)
    (ev : OrderEvent) (position : ℤ) (update_ok : Bool) (now : ℚ)
    (newId : ℕ) : SymbolState × Option SyntheticStop × List Request :=
  if ¬ticketMatches st.entry_ticket ev.orderId then (st, syn, [])
  else if ev.status = OrderStatus.Filled ∨ ev.status = OrderStatus.PartFilled then
    let actual_quantity := ev.fillQty
    let st1 := { st with
        quantity := actual_quantity
        stop_loss_ticket := some ⟨newId, -actual_quantity, OrderStatus.Submitted⟩ }
    let r := ensure_position_protected st1 syn position update_ok now (newId + 1)
    (r.1, r.2.1,
     Request.placeStop (-actual_quantity) st.stop_loss_price "Stop Loss" :: r.2.2)
  else (st, syn, [])

/-- Backup-stop block of OnOrderEvent (lines 405-437): the first tracked
backup whose OrderId matches the event is processed.  An Invalid status
routes its quantity to add_synthetic_protection; any other status is
treated as a fill of the backup: if the re-read position is nonzero a
market order flattens it, the main stop is cancelled if Submitted and
tracking is cleared.  The backup is removed from the list either way. -/
def handleBackupEvent (st : SymbolState) (syn : Option SyntheticStop)
    (ev : OrderEvent) (position : ℤ) (now : ℚ) :
    SymbolState × Option SyntheticStop × List Request :=
  match st.backup_stops.find? (fun b => b.orderId == ev.orderId) with
  | none => (st, syn, [])
  | some b =>
    if ev.status = OrderStatus.Invalid then
      let syn2 := add_synthetic_protection st syn position b.quantity now
      ({ st with backup_stops := st.backup_stops.erase b }, syn2, [])
    else if position ≠ 0 then
      let cancelReqs :=
        match st.stop_loss_ticket with
        | some t =>
          if t.status = OrderStatus.Submitted then [Request.cancelOrder t.orderId]
          else []
        | none => []
      ({ st with
          backup_stops := st.backup_stops.erase b
          last_stop_quantity := 0
          stop_loss_ticket := none },
       syn,
       Request.placeMarket (-position) "Complete exit after backup" :: cancelReqs)
    else
      ({ st with backup_stops := st.backup_stops.erase b }, syn, [])

/-- OpeningRangeBreakoutAlgorithm.OnOrderEvent (lines 389-437).  An
Invalid event returns from the rejection branch and never reaches the
backup block; a Filled or partially filled event is forwarded to
SymbolData.OnOrderEvent and then the backup block runs.  `position` is
the Portfolio quantity re-read inside the handlers. -/
def algOnOrderEvent (sd : SymbolState) (entryW : Option SyntheticEntry)
    (stopW : Option SyntheticStop) (ev : OrderEvent) (position : ℤ)
    (update_ok : Bool) (now : ℚ) (newId : ℕ) :
    SymbolState × Option SyntheticEntry × Option SyntheticStop × List Request :=
  if ev.status = OrderStatus.Invalid then
    if is_schwab_rejection ev.message then
      let w := HandleSchwabRejection sd entryW stopW ev now
      (sd, w.1, w.2, [])
    else (sd, entryW, stopW, [])
  else
    let r1 :=
      if ev.status = OrderStatus.Filled ∨ ev.status = OrderStatus.PartFilled then
        symbolOnOrderEvent sd stopW ev position update_ok now newId
      else (sd, stopW, [])
    let r2 := handleBackupEvent r1.1 r1.2.1 ev position now
    (r2.1, entryW, r2.2.1, r1.2.2 ++ r2.2.2)

/-- C2: evaluation at the failing input: an Invalid order event whose
orderId matches a tracked backup stop order leaves the backup list
unchanged and registers nothing with the synthetic stop monitor, because
OnOrderEvent returns from its Invalid branch before the backup block and
the backup-rejection handling inside that block is unreachable. -/
theorem backup_rejection_unreachable :
    (algOnOrderEvent
        ⟨50, 49, 100, none, some ⟨1, -80, OrderStatus.Submitted⟩, -80,
          [⟨7, -20, OrderStatus.Submitted⟩]⟩
        none none ⟨7, OrderStatus.Invalid, "margin call", 0⟩
        100 true 0 9).1.backup_stops = [⟨7, -20, OrderStatus.Submitted⟩] ∧
    (algOnOrderEvent
        ⟨50, 49, 100, none, some ⟨1, -80, OrderStatus.Submitted⟩, -80,
          [⟨7, -20, OrderStatus.Submitted⟩]⟩
        none none ⟨7, OrderStatus.Invalid, "margin call", 0⟩
        100 true 0 9).2.2.1 = none := by
  constructor <;> decide

/-- C4 counterexample: a fill of the tracked backup order with the
re-read position zero removes the backup and issues no order, but it does
NOT clear the confirmed stop quantity, which stays at -80, contradicting
the claim that all tracked quantities are cleared. -/
theorem backup_fill_flat_counterexample :
    (algOnOrderEvent
        ⟨50, 49, 100, none, some ⟨1, -80, OrderStatus.Submitted⟩, -80,
          [⟨7, -20, OrderStatus.Submitted⟩]⟩
        none none ⟨7, OrderStatus.Filled, "", -20⟩
        0 true 0 9).1.last_stop_quantity = -80 ∧
    (-80 : ℤ) ≠ 0 ∧
    (algOnOrderEvent
        ⟨50, 49, 100, none, some ⟨1, -80, OrderStatus.Submitted⟩, -80,
          [⟨7, -20, OrderStatus.Submitted⟩]⟩
        none none ⟨7, OrderStatus.Filled, "", -20⟩
        0 true 0 9).2.2.2 = [] := by
  refine ⟨by decide, by decide, by decide⟩

/-- C4 amended: on a fill event for a tracked backup stop order with the
re-read position zero, the handler removes that backup from the list and
issues no venue request (in particular no market order); the confirmed
stop quantity and the main stop ticket are left unchanged, not cleared. -/
theorem backup_fill_flat_amended (sd : SymbolState)
    (entryW : Option SyntheticEntry) (stopW : Option SyntheticStop)
    (ev : OrderEvent) (u : Bool) (now : ℚ) (newId : ℕ) (b : Ticket)
    (hst : ev.status = OrderStatus.Filled ∨ ev.status = OrderStatus.PartFilled)
    (hfind : sd.backup_stops.find? (fun t => t.orderId == ev.orderId) = some b)
    (hentry : ticketMatches sd.entry_ticket ev.orderId = false) :
    (algOnOrderEvent sd entryW stopW ev 0 u now newId).1.backup_stops =
        sd.backup_stops.erase b ∧
    (algOnOrderEvent sd entryW stopW ev 0 u now newId).1.last_stop_quantity =
        sd.last_stop_quantity ∧
    (algOnOrderEvent sd entryW stopW ev 0 u now newId).1.stop_loss_ticket =
        sd.stop_loss_ticket ∧
    (algOnOrderEvent sd entryW stopW ev 0 u now newId).2.2.2 = [] := by
  have hni : ¬ev.status = OrderStatus.Invalid := by
    rcases hst with h | h <;> rw [h] <;> simp
  unfold algOnOrderEvent symbolOnOrderEvent handleBackupEvent
  simp [hni, hst, hentry, hfind]

theorem backup_fill_flat_amended_witness :
    ((⟨7, OrderStatus.Filled, "", -20⟩ : OrderEvent).status = OrderStatus.Filled ∨
      (⟨7, OrderStatus.Filled, "", -20⟩ : OrderEvent).status = OrderStatus.PartFilled) ∧
    ((⟨50, 49, 100, none, some ⟨1, -80, OrderStatus.Submitted⟩, -80,
        [⟨7, -20, OrderStatus.Submitted⟩]⟩ : SymbolState).backup_stops.find?
      (fun t => t.orderId == (⟨7, OrderStatus.Filled, "", -20⟩ : OrderEvent).orderId) =
        some ⟨7, -20, OrderStatus.Submitted⟩) ∧
    (algOnOrderEvent
        ⟨50, 49, 100, none, some ⟨1, -80, OrderStatus.Submitted⟩, -80,
          [⟨7, -20, OrderStatus.Submitted⟩]⟩
        none none ⟨7, OrderStatus.Filled, "", -20⟩ 0 true 0 9).1.backup_stops =
      ([⟨7, -20, OrderStatus.Submitted⟩] : List Ticket).erase
        ⟨7, -20, OrderStatus.Submitted⟩ :=
  ⟨Or.inl rfl, by decide,
   (backup_fill_flat_amended
     ⟨50, 49, 100, none, some ⟨1, -80, OrderStatus.Submitted⟩, -80,
       [⟨7, -20, OrderStatus.Submitted⟩]⟩
     none none ⟨7, OrderStatus.Filled, "", -20⟩ true 0 9
     ⟨7, -20, OrderStatus.Submitted⟩ (Or.inl rfl) (by decide) (by decide)).1⟩

/-- C5 amended: on a fill event for a tracked backup stop order with a
nonzero re-read residual position, the handler immediately issues a
market order for the negative of the residual, cancels the main stop
order only when its status is exactly Submitted (a partially filled main
stop, though still working at the venue, is left uncancelled), clears
the confirmed stop quantity and the main stop ticket, and removes the
backup from the list. -/
theorem backup_fill_residual_market (sd : SymbolState)
    (entryW : Option SyntheticEntry) (stopW : Option SyntheticStop)
    (ev : OrderEvent) (p : ℤ) (u : Bool) (now : ℚ) (newId : ℕ) (b : Ticket)
    (hst : ev.status = OrderStatus.Filled ∨ ev.status = OrderStatus.PartFilled)
    (hfind : sd.backup_stops.find? (fun t => t.orderId == ev.orderId) = some b)
    (hentry : ticketMatches sd.entry_ticket ev.orderId = false)
    (hp : p ≠ 0) :
    (algOnOrderEvent sd entryW stopW ev p u now newId).2.2.2 =
        Request.placeMarket (-p) "Complete exit after backup" ::
          (match sd.stop_loss_ticket with
           | some t =>
             if t.status = OrderStatus.Submitted then [Request.cancelOrder t.orderId]
             else []
           | none => []) ∧
    (algOnOrderEvent sd entryW stopW ev p u now newId).1.last_stop_quantity = 0 ∧
    (algOnOrderEvent sd entryW stopW ev p u now newId).1.stop_loss_ticket = none ∧
    (algOnOrderEvent sd entryW stopW ev p u now newId).1.backup_stops =
        sd.backup_stops.erase b := by
  have hni : ¬ev.status = OrderStatus.Invalid := by
    rcases hst with h | h <;> rw [h] <;> simp
  unfold algOnOrderEvent symbolOnOrderEvent handleBackupEvent
  simp [hni, hst, hentry, hfind, hp]

/-- C5 counterexample: a backup fill with residual position +5 while the
main stop ticket is partially filled - still live at the venue, and a
status the source's own cancel_all_stops (lines 752-754) treats as
cancellable - issues the market order but no cancel request, and drops
the ticket reference while the order still works; this contradicts the
claim that the main stop is cancelled whenever it is still live. -/
theorem backup_fill_residual_cancel_counterexample :
    (5 : ℤ) ≠ 0 ∧
    (⟨50, 49, 100, none, some ⟨1, -80, OrderStatus.PartFilled⟩, -80,
        [⟨7, -15, OrderStatus.Submitted⟩]⟩ : SymbolState).stop_loss_ticket =
      some ⟨1, -80, OrderStatus.PartFilled⟩ ∧
    (algOnOrderEvent
        ⟨50, 49, 100, none, some ⟨1, -80, OrderStatus.PartFilled⟩, -80,
          [⟨7, -15, OrderStatus.Submitted⟩]⟩
        none none ⟨7, OrderStatus.Filled, "", -15⟩ 5 true 0 9).2.2.2 =
      [Request.placeMarket (-5) "Complete exit after backup"] ∧
    Request.cancelOrder 1 ∉
      (algOnOrderEvent
        ⟨50, 49, 100, none, some ⟨1, -80, OrderStatus.PartFilled⟩, -80,
          [⟨7, -15, OrderStatus.Submitted⟩]⟩
        none none ⟨7, OrderStatus.Filled, "", -15⟩ 5 true 0 9).2.2.2 := by
  refine ⟨by decide, rfl, by decide, by decide⟩

theorem backup_fill_residual_market_witness :
    ((⟨7, OrderStatus.Filled, "", -15⟩ : OrderEvent).status = OrderStatus.Filled ∨
      (⟨7, OrderStatus.Filled, "", -15⟩ : OrderEvent).status = OrderStatus.PartFilled) ∧
    (5 : ℤ) ≠ 0 ∧
    (algOnOrderEvent
        ⟨50, 49, 100, none, some ⟨1, -80, OrderStatus.Submitted⟩, -80,
          [⟨7, -15, OrderStatus.Submitted⟩]⟩
        none none ⟨7, OrderStatus.Filled, "", -15⟩ 5 true 0 9).2.2.2 =
      [Request.placeMarket (-5) "Complete exit after backup",
       Request.cancelOrder 1] :=
  ⟨Or.inl rfl, by decide, by
    have h := (backup_fill_residual_market
      ⟨50, 49, 100, none, some ⟨1, -80, OrderStatus.Submitted⟩, -80,
        [⟨7, -15, OrderStatus.Submitted⟩]⟩
      none none ⟨7, OrderStatus.Filled, "", -15⟩ 5 true 0 9
      ⟨7, -15, OrderStatus.Submitted⟩ (Or.inl rfl) (by decide) (by decide)
      (by decide)).1
    simpa using h⟩
